import Mathlib

/-!
Verification development for a one-way ANOVA application consisting of two
Python modules: `ANOVA_MAIN.py` (CSV ingestion, validation, and the ANOVA
computation in `AnovaApp.perform_anova` / `AnovaApp.load_csv`) and
`Data_Generator.py` (the synthetic data generator `ANOVADataGenerator`).

The numeric code is embedded over exact rationals `ℚ`.  The source performs
its arithmetic on IEEE-754 doubles (numpy float64); on the inputs considered
here each individual operation is modelled exactly, and the one place where
IEEE non-finite values are semantically essential - division by zero and NaN
propagation, which numpy reports with a `RuntimeWarning` but never raises -
is modelled by the type `PyFloat` below, an exact rational extended with
`nan`, `inf` and `ninf`.
-/

/-- A numpy float64 value as it appears in the embedded computations: an
exact finite rational, or one of the IEEE-754 non-finite values NaN, +∞, -∞.
(Signed zero is irrelevant here because all finite values are exact.) -/
inductive PyFloat : Type where
  | fin : ℚ → PyFloat
  | nan : PyFloat
  | inf : PyFloat
  | ninf : PyFloat
deriving DecidableEq

namespace PyFloat

/-- Division of two exact rationals with numpy float64 semantics: division by
zero yields NaN (for a zero numerator) or a signed infinity, with only a
`RuntimeWarning` emitted - no exception. -/
def divQ (a b : ℚ) : PyFloat :=
  if b = 0 then (if a = 0 then nan else if 0 < a then inf else ninf)
  else fin (a / b)

/-- IEEE-754 negation. -/
def neg : PyFloat → PyFloat
  | fin a => fin (-a)
  | nan => nan
  | inf => ninf
  | ninf => inf

/-- IEEE-754 addition (NaN propagates; ∞ + (-∞) = NaN). -/
def add : PyFloat → PyFloat → PyFloat
  | fin a, fin b => fin (a + b)
  | nan, _ => nan
  | _, nan => nan
  | inf, ninf => nan
  | ninf, inf => nan
  | inf, _ => inf
  | _, inf => inf
  | ninf, _ => ninf
  | _, ninf => ninf

/-- IEEE-754 subtraction. -/
def sub (x y : PyFloat) : PyFloat := add x (neg y)

/-- IEEE-754 multiplication (NaN propagates; ∞ × 0 = NaN). -/
def mul : PyFloat → PyFloat → PyFloat
  | fin a, fin b => fin (a * b)
  | nan, _ => nan
  | _, nan => nan
  | inf, fin b => if b = 0 then nan else if 0 < b then inf else ninf
  | fin a, inf => if a = 0 then nan else if 0 < a then inf else ninf
  | ninf, fin b => if b = 0 then nan else if 0 < b then ninf else inf
  | fin a, ninf => if a = 0 then nan else if 0 < a then ninf else inf
  | inf, inf => inf
  | inf, ninf => ninf
  | ninf, inf => ninf
  | ninf, ninf => inf

/-- IEEE-754 division (NaN propagates; finite/0 via `divQ`; ∞/∞ = NaN). -/
def div : PyFloat → PyFloat → PyFloat
  | fin a, fin b => divQ a b
  | nan, _ => nan
  | _, nan => nan
  | fin _, inf => fin 0
  | fin _, ninf => fin 0
  | inf, fin b => if 0 ≤ b then inf else ninf
  | ninf, fin b => if 0 ≤ b then ninf else inf
  | inf, inf => nan
  | inf, ninf => nan
  | ninf, inf => nan
  | ninf, ninf => nan

/-- IEEE-754 absolute value. -/
def abs : PyFloat → PyFloat
  | fin a => fin |a|
  | nan => nan
  | inf => inf
  | ninf => inf

/-- IEEE-754 strict less-than as a boolean: any comparison with NaN is
false. -/
def ltb : PyFloat → PyFloat → Bool
  | fin a, fin b => decide (a < b)
  | nan, _ => false
  | _, nan => false
  | ninf, ninf => false
  | inf, inf => false
  | ninf, _ => true
  | _, inf => true
  | inf, _ => false
  | _, ninf => false

end PyFloat

/-!
Embedding of `AnovaApp.perform_anova` (ANOVA_MAIN.py, lines 166-254).

A group is the cleaned numeric column `numeric_only[col].dropna().values`,
modelled as a `List ℚ`.  The engine body (lines 207-235) is a pure function
of the list of groups; `alpha` handling (lines 169-173) and the decision
(line 245) are embedded separately below.
-/

/-- The numeric fields computed by `perform_anova` (ANOVA_MAIN.py, lines
207-235).  Degrees of freedom are Python ints; the sums of squares and mean
squares are float64 values that stay finite for non-empty groups, so they are
carried as exact rationals; the F statistic is computed by a float64 division
whose denominator can be zero, so it is a `PyFloat`. -/
structure AnovaCore where
  C : ℚ
  SST : ℚ
  SSTR : ℚ
  SSE : ℚ
  df_treat : ℤ
  df_error : ℤ
  df_total : ℤ
  MSTR : ℚ
  MSE : ℚ
  F : PyFloat
deriving DecidableEq

/-- Embeds ANOVA_MAIN.py lines 207-235: per-group sums, squared sums and
sizes, then C, SST, SSTR, SSE, the three degrees of freedom, MSTR, MSE and
F = MSTR/MSE.  The final division is a float64 division (`PyFloat.divQ`):
numpy emits only a warning when MSE = 0.  The divisions for C, SSTR, MSTR
and MSE use rational division; their denominators are nonzero in every run
the claims quantify over (groups non-empty, n > p). -/
def computeAnova (group_list : List (List ℚ)) : AnovaCore :=
  let group_sums := group_list.map (fun g => g.sum)
  let group_sq_sums := group_list.map (fun g => (g.map (fun x => x ^ 2)).sum)
  let group_sizes := group_list.map (fun g => g.length)
  let p : ℕ := group_list.length
  let n : ℕ := group_sizes.sum
  let total_sum := group_sums.sum
  let C := total_sum ^ 2 / (n : ℚ)
  let total_sq_sum := group_sq_sums.sum
  let SST := total_sq_sum - C
  let SSTR :=
    (List.zipWith (fun (s : ℚ) (sz : ℕ) => s ^ 2 / (sz : ℚ)) group_sums group_sizes).sum - C
  let SSE := SST - SSTR
  let df_treat : ℤ := (p : ℤ) - 1
  let df_error : ℤ := (n : ℤ) - (p : ℤ)
  let df_total : ℤ := (n : ℤ) - 1
  let MSTR := SSTR / ((df_treat : ℚ))
  let MSE := SSE / ((df_error : ℚ))
  let F := PyFloat.divQ MSTR MSE
  ⟨C, SST, SSTR, SSE, df_treat, df_error, df_total, MSTR, MSE, F⟩

/-- Embeds ANOVA_MAIN.py lines 169-173: `alpha = float(alpha_str)` guarded by
`except ValueError: alpha = 0.05`.  The argument is the outcome of Python
float parsing of the caller-supplied string (`none` = absent or unparsable);
the fallback is silent. -/
def parse_alpha (a : Option ℚ) : ℚ :=
  match a with
  | some x => x
  | none => 5 / 100

/-- Embeds ANOVA_MAIN.py line 245: `"Yes" if p_value < alpha else "No"`. -/
def reject_decision (p_value alpha : ℚ) : String :=
  if p_value < alpha then "Yes" else "No"

/-!
Embedding of the validation steps of `perform_anova` (ANOVA_MAIN.py, lines
175-190).  A table after `df.apply(pd.to_numeric, errors='coerce')` is a list
of named columns whose cells are `Option ℚ` (`none` = coercion failed, i.e.
NaN, dropped by `dropna()`).
-/

/-- Embeds ANOVA_MAIN.py lines 189-190: the defensive check that at least two
non-empty groups were built. -/
def checkGroups (group_list : List (String × List ℚ)) :
    Except String (List (String × List ℚ)) :=
  if group_list.length < 2 then
    Except.error "At least two groups are required for ANOVA."
  else Except.ok group_list

/-- Embeds ANOVA_MAIN.py lines 175-190: keep columns with at least one
numeric value (`valid_cols`), fail if fewer than two survive, build the
groups by dropping non-numeric cells, and defensively re-check the group
count. -/
def numericGroups (cols : List (String × List (Option ℚ))) :
    Except String (List (String × List ℚ)) :=
  let valid_cols := cols.filter (fun c => !(c.2.filterMap id).isEmpty)
  if valid_cols.length < 2 then
    Except.error "At least two columns must contain numeric data."
  else
    checkGroups ((valid_cols.map (fun c => (c.1, c.2.filterMap id))).filter
      (fun g => 0 < g.2.length))

/-!
Embedding of `AnovaApp.load_csv` for the `has_header = no` cases
(ANOVA_MAIN.py, lines 110-124).  A raw CSV is modelled as its list of
columns (cells as raw strings; delimiting is the excluded I/O layer's job).
With `header=None, index_col=0`, pandas makes column 0 the index, so the
data frame holds columns 1..; `reset_index` reinserts the index as the first
column; the renaming then covers `col_count + 1` columns.
-/

/-- The loaded frame: the column names assigned by `load_csv` and the column
contents in order. -/
structure LoadedFrame where
  colNames : List String
  cols : List (List String)
deriving DecidableEq

/-- Embeds ANOVA_MAIN.py lines 110-124 for `has_header = "no"`: with an index
column, drop column 0 into the index, record `col_count = df.shape[1]`,
reinsert the index via `reset_index`, and name `col_count + 1` columns
`Group0, Group1, ...`; without one, name all original columns positionally. -/
def load_csv_noheader (has_index : Bool) (raw : List (List String)) : LoadedFrame :=
  if has_index then
    let dfCols := raw.drop 1
    let col_count := dfCols.length
    let afterReset := raw.take 1 ++ dfCols
    ⟨(List.range (col_count + 1)).map (fun i => "Group" ++ toString i), afterReset⟩
  else
    ⟨(List.range raw.length).map (fun i => "Group" ++ toString i), raw⟩

/-!
Embedding of `ANOVADataGenerator` (Data_Generator.py, lines 7-67).

Randomness is factored out: the raw normal draws consumed by
`np.random.normal` are an explicit argument.  `np.std(obs, ddof=1)` is an
irrational square root in general, so the sample standard deviation is an
explicit argument constrained by the predicate `IsNpStd`, which pins it to
the (n-1)-denominator formula of the source, including the NaN it takes when
the divisor n-1 is zero.
-/

/-- Embeds `np.round(x, nd)`: scale by 10^nd, round half to even, scale
back. -/
def roundHalfEven (q : ℚ) : ℤ :=
  if q - Int.floor q < 1 / 2 then Int.floor q
  else if 1 / 2 < q - Int.floor q then Int.floor q + 1
  else if Int.floor q % 2 = 0 then Int.floor q else Int.floor q + 1

/-- Rounding of a rational to `nd` decimal places with numpy's
round-half-to-even tie rule. -/
def np_round (nd : ℕ) (x : ℚ) : ℚ :=
  (roundHalfEven (x * 10 ^ nd) : ℚ) / 10 ^ nd

/-- Rounding of a float64 value: finite values round half to even,
non-finite values pass through. -/
def pyRound (nd : ℕ) : PyFloat → PyFloat
  | PyFloat.fin q => PyFloat.fin (np_round nd q)
  | PyFloat.nan => PyFloat.nan
  | PyFloat.inf => PyFloat.inf
  | PyFloat.ninf => PyFloat.ninf

/-- Embeds `np.mean(observations)`: NaN on an empty array (numpy warns and
returns NaN), the exact arithmetic mean otherwise. -/
def pyMean (obs : List ℚ) : PyFloat :=
  if obs.length = 0 then PyFloat.nan
  else PyFloat.fin (obs.sum / (obs.length : ℚ))

/-- The variance computed inside `np.std(observations, ddof=1)`
(Data_Generator.py, line 51): the sum of squared deviations from the mean
divided by n - 1 as a float64 division, so that a single observation gives
0/0 = NaN; an empty array gives NaN through its NaN mean. -/
def sampleVarP (obs : List ℚ) : PyFloat :=
  if obs.length = 0 then PyFloat.nan
  else
    PyFloat.divQ ((obs.map (fun x => (x - obs.sum / (obs.length : ℚ)) ^ 2)).sum)
      ((obs.length : ℚ) - 1)

/-- Characterizes `s = np.std(obs, ddof=1)`: NaN when the ddof=1 variance is
NaN, otherwise the nonnegative square root of that variance.  The square
root is generally irrational, so it is constrained rather than computed. -/
def IsNpStd (obs : List ℚ) (s : PyFloat) : Prop :=
  (sampleVarP obs = PyFloat.nan ∧ s = PyFloat.nan) ∨
    ∃ v q : ℚ, sampleVarP obs = PyFloat.fin v ∧ 0 ≤ q ∧ q ^ 2 = v ∧ s = PyFloat.fin q

/-- The configuration state of `ANOVADataGenerator.__init__`
(Data_Generator.py, lines 28-37): the six birthdate digits, the replication
count and tolerances, and the rounding precision. -/
structure ANOVADataGenerator where
  d1 : ℕ
  d2 : ℕ
  m1 : ℕ
  m2 : ℕ
  y1 : ℕ
  y2 : ℕ
  replications : ℕ
  tol_mean : ℚ
  tol_std : ℚ
  num_decimals : ℕ
deriving DecidableEq

namespace ANOVADataGenerator

/-- Embeds Data_Generator.py line 40: `max(4, d1 + d2)`. -/
def num_treatments (g : ANOVADataGenerator) : ℕ := max 4 (g.d1 + g.d2)

/-- Embeds Data_Generator.py line 42: `(m2 * d2) / y2`. -/
def target_std (g : ANOVADataGenerator) : ℚ := (g.m2 * g.d2 : ℚ) / (g.y2 : ℚ)

/-- Embeds Data_Generator.py line 64: `(m2 * d2) + (i * y2)` for treatment
index i. -/
def target_mean (g : ANOVADataGenerator) (i : ℕ) : ℚ :=
  (g.m2 * g.d2 : ℚ) + (i : ℚ) * (g.y2 : ℚ)

/-- Embeds `ANOVADataGenerator.__init__` as a fallible constructor: the
derivation of `target_std` at line 42 performs Python integer division,
which raises `ZeroDivisionError` when y2 = 0, before any sampling; the
source validates nothing else. -/
def make (d1 d2 m1 m2 y1 y2 replications : ℕ) (tol_mean tol_std : ℚ)
    (num_decimals : ℕ) : Except String ANOVADataGenerator :=
  if y2 = 0 then Except.error "ZeroDivisionError: division by zero"
  else Except.ok ⟨d1, d2, m1, m2, y1, y2, replications, tol_mean, tol_std, num_decimals⟩

/-- Embeds `generate_observations` (Data_Generator.py, lines 44-55) with the
raw normal draws and the ddof=1 standard deviation made explicit: compute
the sample mean, rescale every value once if either tolerance is exceeded
(float64 comparisons, so a NaN statistic never triggers its disjunct), then
round everything. -/
def generate_observations (g : ANOVADataGenerator) (draws : List ℚ)
    (sample_std : PyFloat) (targetMean targetStd : ℚ) : List PyFloat :=
  let sample_mean := pyMean draws
  let observations := draws.map PyFloat.fin
  let adjusted :=
    if PyFloat.ltb (PyFloat.fin g.tol_mean)
         (PyFloat.abs (PyFloat.sub sample_mean (PyFloat.fin targetMean))) ||
       PyFloat.ltb (PyFloat.fin g.tol_std)
         (PyFloat.abs (PyFloat.sub sample_std (PyFloat.fin targetStd))) then
      observations.map (fun x =>
        PyFloat.add
          (PyFloat.mul (PyFloat.div (PyFloat.sub x sample_mean) sample_std)
            (PyFloat.fin targetStd))
          (PyFloat.fin targetMean))
    else observations
  adjusted.map (pyRound g.num_decimals)

/-- Embeds `generate_data` (Data_Generator.py, lines 57-67): for i from 1 to
`num_treatments`, a column named `Treatment_i` of observations targeting
mean `(m2 * d2) + i * y2` and the shared `target_std`.  `draws i` are the
raw normal draws for treatment i and `stds i` its ddof=1 sample standard
deviation. -/
def generate_data (g : ANOVADataGenerator) (draws : ℕ → List ℚ)
    (stds : ℕ → PyFloat) : List (String × List PyFloat) :=
  (List.range' 1 g.num_treatments).map (fun i =>
    ("Treatment_" ++ toString i,
      g.generate_observations (draws i) (stds i) (g.target_mean i) g.target_std))

end ANOVADataGenerator

/-!
Basic computation facts about the `PyFloat` operations, used when the
embedded source expressions are evaluated on concrete shapes.
-/

@[simp] theorem PyFloat.sub_fin_fin (a b : ℚ) :
    PyFloat.sub (PyFloat.fin a) (PyFloat.fin b) = PyFloat.fin (a - b) := by
  simp [PyFloat.sub, PyFloat.add, PyFloat.neg, sub_eq_add_neg]

@[simp] theorem PyFloat.sub_nan_left (y : PyFloat) : PyFloat.sub PyFloat.nan y = PyFloat.nan := by
  cases y <;> rfl

@[simp] theorem PyFloat.abs_fin (a : ℚ) : PyFloat.abs (PyFloat.fin a) = PyFloat.fin |a| := rfl

@[simp] theorem PyFloat.abs_nan : PyFloat.abs PyFloat.nan = PyFloat.nan := rfl

@[simp] theorem PyFloat.ltb_fin_fin (a b : ℚ) :
    PyFloat.ltb (PyFloat.fin a) (PyFloat.fin b) = decide (a < b) := rfl

@[simp] theorem PyFloat.ltb_nan_right (x : PyFloat) : PyFloat.ltb x PyFloat.nan = false := by
  cases x <;> rfl

@[simp] theorem PyFloat.div_fin_fin (a b : ℚ) (hb : b ≠ 0) :
    PyFloat.div (PyFloat.fin a) (PyFloat.fin b) = PyFloat.fin (a / b) := by
  simp [PyFloat.div, PyFloat.divQ, hb]

@[simp] theorem PyFloat.div_nan_right (x : PyFloat) : PyFloat.div x PyFloat.nan = PyFloat.nan := by
  cases x <;> rfl

@[simp] theorem PyFloat.mul_nan_left (y : PyFloat) : PyFloat.mul PyFloat.nan y = PyFloat.nan := by
  cases y <;> rfl

@[simp] theorem PyFloat.add_nan_left (y : PyFloat) : PyFloat.add PyFloat.nan y = PyFloat.nan := by
  cases y <;> rfl

@[simp] theorem PyFloat.mul_fin_fin (a b : ℚ) :
    PyFloat.mul (PyFloat.fin a) (PyFloat.fin b) = PyFloat.fin (a * b) := rfl

@[simp] theorem PyFloat.add_fin_fin (a b : ℚ) :
    PyFloat.add (PyFloat.fin a) (PyFloat.fin b) = PyFloat.fin (a + b) := rfl

/-!
List algebra helpers shared by the ANOVA theorems.
-/

theorem list_zipWith_map_same {α β γ δ : Type} (f : β → γ → δ) (g₁ : α → β) (g₂ : α → γ)
    (l : List α) :
    List.zipWith f (l.map g₁) (l.map g₂) = l.map (fun a => f (g₁ a) (g₂ a)) := by
  induction l with
  | nil => rfl
  | cons a t ih => simp [ih]

theorem qsum_map_add (l : List ℚ) (f g : ℚ → ℚ) :
    (l.map (fun x => f x + g x)).sum = (l.map f).sum + (l.map g).sum := by
  induction l with
  | nil => simp
  | cons a t ih => simp [ih]; ring

theorem qsum_map_mul (l : List ℚ) (c : ℚ) :
    (l.map (fun x => c * x)).sum = c * l.sum := by
  induction l with
  | nil => simp
  | cons a t ih => simp [ih]; ring

theorem qsum_map_const (l : List ℚ) (c : ℚ) :
    (l.map (fun _ => c)).sum = (l.length : ℚ) * c := by
  induction l with
  | nil => simp
  | cons a t ih => simp [ih]; ring

/-- The algebraic identity behind the correction-factor form of the total sum
of squares: summed squared deviations from the mean equal the summed squares
minus `(sum)^2 / n`. -/
theorem sum_sq_dev (xs : List ℚ) (h : xs ≠ []) :
    (xs.map (fun x => (x - xs.sum / (xs.length : ℚ)) ^ 2)).sum =
      (xs.map (fun x => x ^ 2)).sum - xs.sum ^ 2 / (xs.length : ℚ) := by
  have hn : (xs.length : ℚ) ≠ 0 := by
    have := List.length_pos.mpr h
    positivity
  have expand : ∀ x : ℚ, (x - xs.sum / (xs.length : ℚ)) ^ 2 =
      x ^ 2 + ((-2 * (xs.sum / (xs.length : ℚ))) * x + (xs.sum / (xs.length : ℚ)) ^ 2) := by
    intro x; ring
  calc (xs.map (fun x => (x - xs.sum / (xs.length : ℚ)) ^ 2)).sum
      = (xs.map (fun x =>
          x ^ 2 + ((-2 * (xs.sum / (xs.length : ℚ))) * x +
            (xs.sum / (xs.length : ℚ)) ^ 2))).sum := by
        simp only [expand]
    _ = (xs.map (fun x => x ^ 2)).sum +
          ((-2 * (xs.sum / (xs.length : ℚ))) * xs.sum +
            (xs.length : ℚ) * (xs.sum / (xs.length : ℚ)) ^ 2) := by
        rw [qsum_map_add]
        congr 1
        rw [qsum_map_add, qsum_map_mul, qsum_map_const]
    _ = (xs.map (fun x => x ^ 2)).sum - xs.sum ^ 2 / (xs.length : ℚ) := by
        field_simp
        ring

/-- C1: on a sequence of at least 2 non-empty groups with n > p, the engine
reproduces exactly the textbook one-way fixed-effects quantities: the
correction factor C from the pooled sum, SST from the pooled squares, SSTR
from per-group sums, SSE = SST - SSTR, the three degrees of freedom, the
mean squares, and F = MSTR/MSE (as a finite float whenever MSE is nonzero). -/
theorem anova_matches_spec_formulas (groups : List (List ℚ))
    (h2 : 2 ≤ groups.length) (hne : ∀ g ∈ groups, g ≠ [])
    (hnp : groups.length < (groups.map List.length).sum) :
    (computeAnova groups).C = groups.flatten.sum ^ 2 / (groups.flatten.length : ℚ) ∧
    (computeAnova groups).SST =
      (groups.flatten.map (fun x => x ^ 2)).sum - (computeAnova groups).C ∧
    (computeAnova groups).SSTR =
      (groups.map (fun g => g.sum ^ 2 / (g.length : ℚ))).sum - (computeAnova groups).C ∧
    (computeAnova groups).SSE = (computeAnova groups).SST - (computeAnova groups).SSTR ∧
    (computeAnova groups).df_treat = (groups.length : ℤ) - 1 ∧
    (computeAnova groups).df_error = (groups.flatten.length : ℤ) - (groups.length : ℤ) ∧
    (computeAnova groups).df_total = (groups.flatten.length : ℤ) - 1 ∧
    (computeAnova groups).MSTR = (computeAnova groups).SSTR / ((groups.length : ℚ) - 1) ∧
    (computeAnova groups).MSE =
      (computeAnova groups).SSE / ((groups.flatten.length : ℚ) - (groups.length : ℚ)) ∧
    ((computeAnova groups).MSE ≠ 0 →
      (computeAnova groups).F =
        PyFloat.fin ((computeAnova groups).MSTR / (computeAnova groups).MSE)) := by
  have hlen : groups.flatten.length = (groups.map (fun g => g.length)).sum :=
    List.length_flatten groups
  have hsum : groups.flatten.sum = (groups.map (fun g => g.sum)).sum := List.sum_flatten
  have hsq : (groups.flatten.map (fun x => x ^ 2)).sum =
      (groups.map (fun g => (g.map (fun x => x ^ 2)).sum)).sum := by
    rw [List.map_flatten, List.sum_flatten, List.map_map]
    rfl
  have hzip : (List.zipWith (fun (s : ℚ) (sz : ℕ) => s ^ 2 / (sz : ℚ))
        (groups.map (fun g => g.sum)) (groups.map (fun g => g.length))).sum =
      (groups.map (fun g => g.sum ^ 2 / (g.length : ℚ))).sum := by
    rw [list_zipWith_map_same]
  refine ⟨?_, ?_, ?_, ?_, ?_, ?_, ?_, ?_, ?_, ?_⟩ <;>
      simp only [computeAnova, hlen, hsum, hsq, hzip] <;>
    try rfl
  · norm_cast
  · norm_cast
  · intro h
    simp only [PyFloat.divQ, if_neg h]

/-- Witness for C1: the concrete run on groups [1,2] and [4,6] (p = 2,
n = 4 > p) satisfies every conclusion of `anova_matches_spec_formulas`. -/
theorem anova_matches_spec_formulas_instance :
    (computeAnova [[1, 2], [4, 6]]).C =
      ([[1, 2], [4, 6]] : List (List ℚ)).flatten.sum ^ 2 /
        (([[1, 2], [4, 6]] : List (List ℚ)).flatten.length : ℚ) ∧
    (computeAnova [[1, 2], [4, 6]]).SST =
      (([[1, 2], [4, 6]] : List (List ℚ)).flatten.map (fun x => x ^ 2)).sum -
        (computeAnova [[1, 2], [4, 6]]).C ∧
    (computeAnova [[1, 2], [4, 6]]).SSTR =
      (([[1, 2], [4, 6]] : List (List ℚ)).map (fun g => g.sum ^ 2 / (g.length : ℚ))).sum -
        (computeAnova [[1, 2], [4, 6]]).C ∧
    (computeAnova [[1, 2], [4, 6]]).SSE =
      (computeAnova [[1, 2], [4, 6]]).SST - (computeAnova [[1, 2], [4, 6]]).SSTR ∧
    (computeAnova [[1, 2], [4, 6]]).df_treat =
      (([[1, 2], [4, 6]] : List (List ℚ)).length : ℤ) - 1 ∧
    (computeAnova [[1, 2], [4, 6]]).df_error =
      (([[1, 2], [4, 6]] : List (List ℚ)).flatten.length : ℤ) -
        (([[1, 2], [4, 6]] : List (List ℚ)).length : ℤ) ∧
    (computeAnova [[1, 2], [4, 6]]).df_total =
      (([[1, 2], [4, 6]] : List (List ℚ)).flatten.length : ℤ) - 1 ∧
    (computeAnova [[1, 2], [4, 6]]).MSTR =
      (computeAnova [[1, 2], [4, 6]]).SSTR /
        ((([[1, 2], [4, 6]] : List (List ℚ)).length : ℚ) - 1) ∧
    (computeAnova [[1, 2], [4, 6]]).MSE =
      (computeAnova [[1, 2], [4, 6]]).SSE /
        ((([[1, 2], [4, 6]] : List (List ℚ)).flatten.length : ℚ) -
          (([[1, 2], [4, 6]] : List (List ℚ)).length : ℚ)) ∧
    ((computeAnova [[1, 2], [4, 6]]).MSE ≠ 0 →
      (computeAnova [[1, 2], [4, 6]]).F =
        PyFloat.fin ((computeAnova [[1, 2], [4, 6]]).MSTR / (computeAnova [[1, 2], [4, 6]]).MSE)) :=
  anova_matches_spec_formulas [[1, 2], [4, 6]] (by norm_num) (by decide) (by norm_num)

/-- C2 (code bug evidence): on two groups [1,1] and [1,1] - all within-group
values identical and both group means equal, the claim's scenario - the
engine computes MSE = 0 yet raises nothing: the float64 division MSTR/MSE is
0/0, so a result with F = NaN is returned (numpy emits only a
RuntimeWarning), contradicting the required fatal computational error. -/
theorem anova_zero_mse_returns_nan :
    (computeAnova [[1, 1], [1, 1]]).MSE = 0 ∧
    (computeAnova [[1, 1], [1, 1]]).F = PyFloat.nan ∧
    (computeAnova [[1, 1], [1, 1]]).df_error = 2 := by
  refine ⟨?_, ?_, ?_⟩ <;> norm_num [computeAnova, PyFloat.divQ]

/-- C3: SSE is constructed as SST - SSTR, so SST = SSTR + SSE holds exactly,
and the total sum of squares computed directly from the pooled values (sum
of squared deviations from the grand mean) also equals SSTR + SSE - in this
exact-arithmetic embedding the agreement is exact, hence within any
floating-point epsilon. -/
theorem sum_of_squares_decomposition (groups : List (List ℚ))
    (h2 : 2 ≤ groups.length) (hne : ∀ g ∈ groups, g ≠ []) :
    (computeAnova groups).SST = (computeAnova groups).SSTR + (computeAnova groups).SSE ∧
    (groups.flatten.map
        (fun x => (x - groups.flatten.sum / (groups.flatten.length : ℚ)) ^ 2)).sum =
      (computeAnova groups).SSTR + (computeAnova groups).SSE := by
  have hflat : groups.flatten ≠ [] := by
    cases groups with
    | nil => simp at h2
    | cons g gs =>
      have hg : g ≠ [] := hne g (List.mem_cons_self g gs)
      intro hc
      rw [List.flatten_cons] at hc
      exact hg (List.append_eq_nil.mp hc).1
  have hfirst : (computeAnova groups).SST =
      (computeAnova groups).SSTR + (computeAnova groups).SSE := by
    simp only [computeAnova]
    ring
  refine ⟨hfirst, ?_⟩
  rw [sum_sq_dev groups.flatten hflat, ← hfirst]
  have hlen : groups.flatten.length = (groups.map (fun g => g.length)).sum :=
    List.length_flatten groups
  have hsum : groups.flatten.sum = (groups.map (fun g => g.sum)).sum := List.sum_flatten
  have hsq : (groups.flatten.map (fun x => x ^ 2)).sum =
      (groups.map (fun g => (g.map (fun x => x ^ 2)).sum)).sum := by
    rw [List.map_flatten, List.sum_flatten, List.map_map]
    rfl
  simp only [computeAnova, hlen, hsum, hsq]

/-- Witness for C3: the decomposition evaluated on groups [1,2] and
[4,6]. -/
theorem sum_of_squares_decomposition_instance :
    (computeAnova [[1, 2], [4, 6]]).SST =
      (computeAnova [[1, 2], [4, 6]]).SSTR + (computeAnova [[1, 2], [4, 6]]).SSE ∧
    (([[1, 2], [4, 6]] : List (List ℚ)).flatten.map
        (fun x => (x - ([[1, 2], [4, 6]] : List (List ℚ)).flatten.sum /
          (([[1, 2], [4, 6]] : List (List ℚ)).flatten.length : ℚ)) ^ 2)).sum =
      (computeAnova [[1, 2], [4, 6]]).SSTR + (computeAnova [[1, 2], [4, 6]]).SSE :=
  sum_of_squares_decomposition [[1, 2], [4, 6]] (by norm_num) (by decide)

/-- C4: the reject decision is the string "Yes" exactly when p-value < α
strictly; α is the parsed caller value when parsing succeeded and exactly
0.05 when it is absent or unparsable, with no error raised in either case
(the embedding is total). -/
theorem alpha_default_and_strict_decision (p_value : ℚ) (a : Option ℚ) :
    (reject_decision p_value (parse_alpha a) = "Yes" ↔ p_value < parse_alpha a) ∧
    parse_alpha none = 5 / 100 ∧
    (∀ x : ℚ, parse_alpha (some x) = x) ∧
    (reject_decision p_value (parse_alpha a) = "Yes" ∨
      reject_decision p_value (parse_alpha a) = "No") := by
  refine ⟨?_, rfl, fun x => rfl, ?_⟩
  · unfold reject_decision
    by_cases h : p_value < parse_alpha a
    · rw [if_pos h]
      exact iff_of_true rfl h
    · rw [if_neg h]
      exact iff_of_false (by decide) h
  · unfold reject_decision
    by_cases h : p_value < parse_alpha a
    · exact Or.inl (by simp only [if_pos h])
    · exact Or.inr (by simp only [if_neg h])

/-- Witness for C4: with p-value 0.01 and an unparsable α the default 0.05
applies and the decision is reject. -/
theorem alpha_default_and_strict_decision_instance :
    (reject_decision (1 / 100) (parse_alpha none) = "Yes" ↔
      (1 / 100 : ℚ) < parse_alpha none) ∧
    parse_alpha none = 5 / 100 ∧
    (∀ x : ℚ, parse_alpha (some x) = x) ∧
    (reject_decision (1 / 100) (parse_alpha none) = "Yes" ∨
      reject_decision (1 / 100) (parse_alpha none) = "No") :=
  alpha_default_and_strict_decision (1 / 100) none

/-- C5: with no header and no index column, `load_csv` names the columns
Group0, Group1, ... positionally over the original column count and keeps
the data unchanged; with an index column, the first column is dropped into
the index, reinserted by `reset_index`, and the renaming restarts at Group0
over the reduced column count plus one, so the names run Group0 through
Group(reduced count) inclusive. -/
theorem noheader_column_naming (raw : List (List String)) (hraw : raw ≠ []) :
    ((load_csv_noheader false raw).colNames.length = raw.length ∧
      (load_csv_noheader false raw).cols = raw ∧
      ∀ i, i < raw.length →
        (load_csv_noheader false raw).colNames[i]? = some ("Group" ++ toString i)) ∧
    ((load_csv_noheader true raw).colNames.length = (raw.length - 1) + 1 ∧
      (load_csv_noheader true raw).cols = raw ∧
      ∀ i, i ≤ raw.length - 1 →
        (load_csv_noheader true raw).colNames[i]? = some ("Group" ++ toString i)) := by
  refine ⟨⟨?_, rfl, fun i hi => ?_⟩, ⟨?_, ?_, fun i hi => ?_⟩⟩
  · simp [load_csv_noheader]
  · simp [load_csv_noheader, List.getElem?_map, List.getElem?_range hi]
  · simp [load_csv_noheader]
  · show List.take 1 raw ++ List.drop 1 raw = raw
    exact List.take_append_drop 1 raw
  · have hi' : i < raw.length - 1 + 1 := by omega
    simp [load_csv_noheader, List.getElem?_map, List.getElem?_range hi']

/-- Witness for C5: a three-column raw table. -/
theorem noheader_column_naming_instance :
    ((load_csv_noheader false [["1", "2"], ["3", "4"], ["5", "6"]]).colNames.length =
        ([["1", "2"], ["3", "4"], ["5", "6"]] : List (List String)).length ∧
      (load_csv_noheader false [["1", "2"], ["3", "4"], ["5", "6"]]).cols =
        [["1", "2"], ["3", "4"], ["5", "6"]] ∧
      ∀ i, i < ([["1", "2"], ["3", "4"], ["5", "6"]] : List (List String)).length →
        (load_csv_noheader false [["1", "2"], ["3", "4"], ["5", "6"]]).colNames[i]? =
          some ("Group" ++ toString i)) ∧
    ((load_csv_noheader true [["1", "2"], ["3", "4"], ["5", "6"]]).colNames.length =
        (([["1", "2"], ["3", "4"], ["5", "6"]] : List (List String)).length - 1) + 1 ∧
      (load_csv_noheader true [["1", "2"], ["3", "4"], ["5", "6"]]).cols =
        [["1", "2"], ["3", "4"], ["5", "6"]] ∧
      ∀ i, i ≤ ([["1", "2"], ["3", "4"], ["5", "6"]] : List (List String)).length - 1 →
        (load_csv_noheader true [["1", "2"], ["3", "4"], ["5", "6"]]).colNames[i]? =
          some ("Group" ++ toString i)) :=
  noheader_column_naming [["1", "2"], ["3", "4"], ["5", "6"]] (by decide)

/-- C6 counterexample: on a table whose two columns are both entirely
non-numeric, ingestion fails, but the error message carries a trailing
period - it is "At least two columns must contain numeric data." and not
the claim's quoted string "At least two columns must contain numeric
data". -/
theorem numeric_columns_message_has_period :
    numericGroups [("A", [none]), ("B", [none])] =
      Except.error "At least two columns must contain numeric data." ∧
    "At least two columns must contain numeric data." ≠
      "At least two columns must contain numeric data" := by
  exact ⟨rfl, by decide⟩

/-- C6 as amended (messages carry their trailing periods): if fewer than two
columns retain a numeric value the result is the validation error "At least
two columns must contain numeric data."; the defensive group-count check
fails with "At least two groups are required for ANOVA." whenever it sees
fewer than two groups; and any successful result carries at least two
groups, so no ANOVA computation proceeds on fewer. -/
theorem ingestion_validation_errors (cols : List (String × List (Option ℚ))) :
    ((cols.filter (fun c => !(c.2.filterMap id).isEmpty)).length < 2 →
      numericGroups cols =
        Except.error "At least two columns must contain numeric data.") ∧
    (∀ gs : List (String × List ℚ), gs.length < 2 →
      checkGroups gs = Except.error "At least two groups are required for ANOVA.") ∧
    (∀ gs, numericGroups cols = Except.ok gs → 2 ≤ gs.length) := by
  refine ⟨fun h => ?_, fun gs h => ?_, fun gs h => ?_⟩
  · simp only [numericGroups, if_pos h]
  · simp only [checkGroups, if_pos h]
  · simp only [numericGroups] at h
    split at h
    · exact Except.noConfusion h
    · simp only [checkGroups] at h
      split at h
      · exact Except.noConfusion h
      · rename_i hcond
        obtain rfl := Except.ok.inj h
        omega

/-- Witness for C6: a single numeric column triggers the column-count
validation error. -/
theorem ingestion_validation_errors_instance :
    numericGroups [("A", [some (1 : ℚ)])] =
      Except.error "At least two columns must contain numeric data." :=
  (ingestion_validation_errors [("A", [some (1 : ℚ)])]).1 (by decide)

/-- C7: for a configuration with y2 nonzero, the generator derives
max(4, d1+d2) treatments and output columns; one shared target standard
deviation (m2·d2)/y2; per-treatment (1-indexed) target mean (m2·d2) + i·y2;
and assembles the columns in treatment order under names carrying the
treatment index. -/
theorem generator_derived_quantities (g : ANOVADataGenerator) (hy : g.y2 ≠ 0)
    (draws : ℕ → List ℚ) (stds : ℕ → PyFloat) :
    (g.generate_data draws stds).length = max 4 (g.d1 + g.d2) ∧
    g.target_std = (g.m2 * g.d2 : ℚ) / (g.y2 : ℚ) ∧
    ∀ i, i < max 4 (g.d1 + g.d2) →
      (g.generate_data draws stds)[i]? =
        some ("Treatment_" ++ toString (i + 1),
          g.generate_observations (draws (i + 1)) (stds (i + 1))
            ((g.m2 * g.d2 : ℚ) + ((i : ℚ) + 1) * (g.y2 : ℚ))
            ((g.m2 * g.d2 : ℚ) / (g.y2 : ℚ))) := by
  refine ⟨?_, rfl, fun i hi => ?_⟩
  · simp [ANOVADataGenerator.generate_data, ANOVADataGenerator.num_treatments]
  · simp only [ANOVADataGenerator.generate_data, List.getElem?_map]
    rw [List.getElem?_range' 1 1 (show i < g.num_treatments from hi)]
    simp only [Option.map_some']
    rw [show 1 + 1 * i = i + 1 from by omega]
    have hm : g.target_mean (i + 1) =
        (g.m2 * g.d2 : ℚ) + ((i : ℚ) + 1) * (g.y2 : ℚ) := by
      unfold ANOVADataGenerator.target_mean
      push_cast
      ring
    rw [hm]
    rfl

/-- Witness for C7: the configuration with digits d1 = 1, d2 = 0, m2 = 3,
y2 = 4 (so 4 treatments, target std 0, target means 3·0 + 4i). -/
theorem generator_derived_quantities_instance :
    ((ANOVADataGenerator.mk 1 0 0 3 2 4 25 (5 / 100) (5 / 100) 2).generate_data
        (fun _ => []) (fun _ => PyFloat.nan)).length =
      max 4 ((ANOVADataGenerator.mk 1 0 0 3 2 4 25 (5 / 100) (5 / 100) 2).d1 +
        (ANOVADataGenerator.mk 1 0 0 3 2 4 25 (5 / 100) (5 / 100) 2).d2) ∧
    (ANOVADataGenerator.mk 1 0 0 3 2 4 25 (5 / 100) (5 / 100) 2).target_std =
      ((ANOVADataGenerator.mk 1 0 0 3 2 4 25 (5 / 100) (5 / 100) 2).m2 *
          (ANOVADataGenerator.mk 1 0 0 3 2 4 25 (5 / 100) (5 / 100) 2).d2 : ℚ) /
        ((ANOVADataGenerator.mk 1 0 0 3 2 4 25 (5 / 100) (5 / 100) 2).y2 : ℚ) ∧
    (∀ i : ℕ, i < max 4 ((ANOVADataGenerator.mk 1 0 0 3 2 4 25 (5 / 100) (5 / 100) 2).d1 +
        (ANOVADataGenerator.mk 1 0 0 3 2 4 25 (5 / 100) (5 / 100) 2).d2) →
      ((ANOVADataGenerator.mk 1 0 0 3 2 4 25 (5 / 100) (5 / 100) 2).generate_data
          (fun _ => []) (fun _ => PyFloat.nan))[i]? =
        some ("Treatment_" ++ toString (i + 1),
          (ANOVADataGenerator.mk 1 0 0 3 2 4 25 (5 / 100) (5 / 100)
              2).generate_observations [] PyFloat.nan
            (((ANOVADataGenerator.mk 1 0 0 3 2 4 25 (5 / 100) (5 / 100) 2).m2 *
                (ANOVADataGenerator.mk 1 0 0 3 2 4 25 (5 / 100) (5 / 100) 2).d2 : ℚ) +
              ((i : ℚ) + 1) *
                ((ANOVADataGenerator.mk 1 0 0 3 2 4 25 (5 / 100) (5 / 100) 2).y2 : ℚ))
            (((ANOVADataGenerator.mk 1 0 0 3 2 4 25 (5 / 100) (5 / 100) 2).m2 *
                (ANOVADataGenerator.mk 1 0 0 3 2 4 25 (5 / 100) (5 / 100) 2).d2 : ℚ) /
              ((ANOVADataGenerator.mk 1 0 0 3 2 4 25 (5 / 100) (5 / 100) 2).y2 : ℚ)))) :=
  generator_derived_quantities (ANOVADataGenerator.mk 1 0 0 3 2 4 25 (5 / 100) (5 / 100) 2)
    (by norm_num) (fun _ => []) (fun _ => PyFloat.nan)

/-- C8: with at least two draws and a nonzero rational ddof=1 sample
standard deviation q (characterized by the (n-1)-denominator formula in the
first conjunct), the sample is rescaled by the one-shot affine map
((x - mean)/q)·targetStd + targetMean exactly when |mean - targetMean| >
tol_mean or |q - targetStd| > tol_std, applied once with no retry, and every
value is then rounded to `num_decimals` places half-to-even (the final
conjuncts pin the tie-breaking rule: 0.5 rounds to 0, 1.5 and 2.5 both
round to 2). -/
theorem rescale_iff_and_round (g : ANOVADataGenerator) (draws : List ℚ)
    (q targetMean targetStd : ℚ) (h2 : 2 ≤ draws.length)
    (hstd : IsNpStd draws (PyFloat.fin q)) (hq : q ≠ 0) :
    q ^ 2 = (draws.map (fun x => (x - draws.sum / (draws.length : ℚ)) ^ 2)).sum /
        ((draws.length : ℚ) - 1) ∧
    g.generate_observations draws (PyFloat.fin q) targetMean targetStd =
      (if g.tol_mean < |draws.sum / (draws.length : ℚ) - targetMean| ∨
          g.tol_std < |q - targetStd| then
        draws.map (fun x =>
          PyFloat.fin (np_round g.num_decimals
            (((x - draws.sum / (draws.length : ℚ)) / q) * targetStd + targetMean)))
      else
        draws.map (fun x => PyFloat.fin (np_round g.num_decimals x))) ∧
    roundHalfEven (1 / 2) = 0 ∧ roundHalfEven (3 / 2) = 2 ∧ roundHalfEven (5 / 2) = 2 := by
  have hne : draws.length ≠ 0 := by omega
  have hlen1 : ((draws.length : ℚ) - 1) ≠ 0 := by
    have h2q : (2 : ℚ) ≤ (draws.length : ℚ) := by exact_mod_cast h2
    intro hc
    nlinarith
  have hvar : sampleVarP draws = PyFloat.fin
      ((draws.map (fun x => (x - draws.sum / (draws.length : ℚ)) ^ 2)).sum /
        ((draws.length : ℚ) - 1)) := by
    unfold sampleVarP
    rw [if_neg hne]
    unfold PyFloat.divQ
    rw [if_neg hlen1]
  have hq2 : q ^ 2 = (draws.map (fun x => (x - draws.sum / (draws.length : ℚ)) ^ 2)).sum /
      ((draws.length : ℚ) - 1) := by
    rcases hstd with ⟨hn, _⟩ | ⟨v, q', hv, hq'0, hq'sq, heq⟩
    · rw [hvar] at hn
      exact PyFloat.noConfusion hn
    · rw [hvar] at hv
      have hv' := PyFloat.fin.inj hv
      have heq' := PyFloat.fin.inj heq
      rw [heq', hq'sq, ← hv']
  refine ⟨hq2, ?_, by norm_num [roundHalfEven], by norm_num [roundHalfEven],
    by norm_num [roundHalfEven]⟩
  have hmean : pyMean draws = PyFloat.fin (draws.sum / (draws.length : ℚ)) := by
    unfold pyMean
    rw [if_neg hne]
  simp only [ANOVADataGenerator.generate_observations, hmean, PyFloat.sub_fin_fin,
    PyFloat.abs_fin, PyFloat.ltb_fin_fin, ← Bool.decide_or]
  by_cases hcond : g.tol_mean < |draws.sum / (draws.length : ℚ) - targetMean| ∨
      g.tol_std < |q - targetStd|
  · rw [if_pos (decide_eq_true hcond), if_pos hcond]
    simp [List.map_map, Function.comp, pyRound, hq]
  · rw [if_neg (by simpa using hcond), if_neg hcond]
    simp [List.map_map, Function.comp, pyRound]

/-- Witness for C8: draws [1,2,3] have mean 2 and ddof=1 standard deviation
exactly 1; with target mean 0 the mean tolerance is exceeded and the
rescale fires. -/
theorem rescale_iff_and_round_instance :
    (1 : ℚ) ^ 2 = (([1, 2, 3] : List ℚ).map
        (fun x => (x - ([1, 2, 3] : List ℚ).sum / (([1, 2, 3] : List ℚ).length : ℚ)) ^ 2)).sum /
        ((([1, 2, 3] : List ℚ).length : ℚ) - 1) ∧
    (ANOVADataGenerator.mk 1 0 0 3 2 4 3 (5 / 100) (5 / 100) 2).generate_observations
        [1, 2, 3] (PyFloat.fin 1) 0 1 =
      (if (ANOVADataGenerator.mk 1 0 0 3 2 4 3 (5 / 100) (5 / 100) 2).tol_mean <
          |([1, 2, 3] : List ℚ).sum / (([1, 2, 3] : List ℚ).length : ℚ) - 0| ∨
          (ANOVADataGenerator.mk 1 0 0 3 2 4 3 (5 / 100) (5 / 100) 2).tol_std <
            |(1 : ℚ) - 1| then
        ([1, 2, 3] : List ℚ).map (fun x =>
          PyFloat.fin (np_round
            (ANOVADataGenerator.mk 1 0 0 3 2 4 3 (5 / 100) (5 / 100) 2).num_decimals
            (((x - ([1, 2, 3] : List ℚ).sum / (([1, 2, 3] : List ℚ).length : ℚ)) / 1) * 1 + 0)))
      else
        ([1, 2, 3] : List ℚ).map (fun x =>
          PyFloat.fin (np_round
            (ANOVADataGenerator.mk 1 0 0 3 2 4 3 (5 / 100) (5 / 100) 2).num_decimals x))) ∧
    roundHalfEven (1 / 2) = 0 ∧ roundHalfEven (3 / 2) = 2 ∧ roundHalfEven (5 / 2) = 2 :=
  rescale_iff_and_round (ANOVADataGenerator.mk 1 0 0 3 2 4 3 (5 / 100) (5 / 100) 2)
    [1, 2, 3] 1 0 1 (by norm_num)
    (Or.inr ⟨1, 1, by norm_num [sampleVarP, PyFloat.divQ], by norm_num, by norm_num, rfl⟩)
    (by norm_num)

/-- C9 counterexample: replications = 0 (< 1) is accepted without any error:
construction succeeds, and the generator returns max(4, 1+0) = 4 columns
that are simply empty - nothing fails before (or during) sampling. -/
theorem zero_replications_no_error :
    ANOVADataGenerator.make 1 0 0 3 2 4 0 (5 / 100) (5 / 100) 2 =
      Except.ok ⟨1, 0, 0, 3, 2, 4, 0, 5 / 100, 5 / 100, 2⟩ ∧
    (ANOVADataGenerator.mk 1 0 0 3 2 4 0 (5 / 100) (5 / 100) 2).generate_data
        (fun _ => []) (fun _ => PyFloat.nan) =
      [("Treatment_1", []), ("Treatment_2", []), ("Treatment_3", []), ("Treatment_4", [])] := by
  constructor
  · rfl
  · rfl

/-- C9 as amended: the generator fails before any sampling when year-digit-2
is 0 (`ZeroDivisionError` from the integer division deriving the target
standard deviation in `__init__`), and only then; replications < 1 is not
validated anywhere - with zero replications every treatment simply yields an
empty observation list, with no error. -/
theorem generator_failure_amended (d1 d2 m1 m2 y1 y2 replications : ℕ)
    (tol_mean tol_std : ℚ) (num_decimals : ℕ) :
    (y2 = 0 → ANOVADataGenerator.make d1 d2 m1 m2 y1 y2 replications tol_mean tol_std
        num_decimals = Except.error "ZeroDivisionError: division by zero") ∧
    (y2 ≠ 0 → ANOVADataGenerator.make d1 d2 m1 m2 y1 y2 replications tol_mean tol_std
        num_decimals =
      Except.ok ⟨d1, d2, m1, m2, y1, y2, replications, tol_mean, tol_std, num_decimals⟩) ∧
    (∀ gen : ANOVADataGenerator, ∀ s targetMean targetStd,
      gen.generate_observations [] s targetMean targetStd = []) := by
  refine ⟨fun h => ?_, fun h => ?_, fun gen s tm ts => ?_⟩
  · simp [ANOVADataGenerator.make, h]
  · simp [ANOVADataGenerator.make, h]
  · simp [ANOVADataGenerator.generate_observations]

/-- Witness for C9 (amended): with y2 = 0 construction fails before any
sampling. -/
theorem generator_failure_amended_instance :
    ANOVADataGenerator.make 1 0 0 3 2 0 25 (5 / 100) (5 / 100) 2 =
      Except.error "ZeroDivisionError: division by zero" :=
  (generator_failure_amended 1 0 0 3 2 0 25 (5 / 100) (5 / 100) 2).1 rfl

/-- C10: with a single replication the ddof=1 standard deviation is the NaN
0/0 (forced by `IsNpStd` on a one-element draw list), and whenever the
single draw deviates from the target mean by more than tol_mean the
unguarded rescale divides by that NaN, so the returned treatment column is
entirely NaN - the generator does not fail with an error. -/
theorem single_replication_nan_column (g : ANOVADataGenerator)
    (draw targetMean targetStd : ℚ) (s : PyFloat) (hs : IsNpStd [draw] s) :
    s = PyFloat.nan ∧
    (g.tol_mean < |draw - targetMean| →
      g.generate_observations [draw] s targetMean targetStd = [PyFloat.nan]) := by
  have hvar : sampleVarP [draw] = PyFloat.nan := by
    unfold sampleVarP
    norm_num [PyFloat.divQ]
  have hsn : s = PyFloat.nan := by
    rcases hs with ⟨_, h⟩ | ⟨v, q, hv, _, _, _⟩
    · exact h
    · rw [hvar] at hv
      exact PyFloat.noConfusion hv
  subst hsn
  refine ⟨rfl, fun hgt => ?_⟩
  have hmean : pyMean [draw] = PyFloat.fin draw := by
    unfold pyMean
    norm_num
  simp only [ANOVADataGenerator.generate_observations, hmean, PyFloat.sub_fin_fin,
    PyFloat.abs_fin, PyFloat.ltb_fin_fin, PyFloat.sub_nan_left, PyFloat.abs_nan,
    PyFloat.ltb_nan_right, Bool.or_false]
  rw [if_pos (decide_eq_true hgt)]
  simp [pyRound]

/-- Witness for C10: a single draw of 5 against target mean 0 with tolerance
0.05 produces the all-NaN column. -/
theorem single_replication_nan_column_instance :
    PyFloat.nan = PyFloat.nan ∧
    ((ANOVADataGenerator.mk 1 0 0 3 2 4 1 (5 / 100) (5 / 100) 2).tol_mean <
        |(5 : ℚ) - 0| →
      (ANOVADataGenerator.mk 1 0 0 3 2 4 1 (5 / 100) (5 / 100) 2).generate_observations
          [5] PyFloat.nan 0 1 = [PyFloat.nan]) :=
  single_replication_nan_column (ANOVADataGenerator.mk 1 0 0 3 2 4 1 (5 / 100) (5 / 100) 2)
    5 0 1 PyFloat.nan
    (Or.inl ⟨by norm_num [sampleVarP, PyFloat.divQ], rfl⟩)
